import Mathlib

/-!
Verification of the unpooled-model notebook (05-unpooled_model.ipynb).

The notebook loads a pre-cleaned radon dataset (the clean_data module),
builds a Stan model as the concatenation of four string blocks, passes the
string and a data dictionary to pystan.stan in a single call, extracts the
per-county intercept samples from the returned fit object, computes a mean
and a standard deviation per county, and plots the per-county summaries
sorted by estimate.

The development below is a shallow embedding of that notebook:
rationals stand for the floating-point sample values, lists for numpy
arrays and pandas series, and an abstract sampler function for pystan.
-/

namespace Unpooled

/-! ## The pre-cleaned dataset (the clean_data module)

The notebook reads four attributes of the imported clean_data module:
log_radon (the measurements, bound to y), county (0-based county index per
household), floor_measure (the covariate, bound to x) and mn_counties (the
85 county names). -/

/-- The attributes of the clean_data module that the notebook reads. -/
structure CleanData where
  log_radon : List ℚ
  county : List ℕ
  floor_measure : List ℚ
  mn_counties : List String

/-- The data dictionary handed to pystan.stan: keys N, county, x, y. -/
structure StanDataDict where
  N : ℕ
  county : List ℕ
  x : List ℚ
  y : List ℚ

/-- A fit object: parameter name to the extracted ndarray of samples
(rows are draws, columns are vector components), as unpooled_fit[name]. -/
def StanFit : Type := List (String × List (List ℚ))

/-! ## The numpy operations the notebook uses

unpooled_fit['a'] is a (draws x 85) array; .mean(0) and .std(0) reduce
along axis 0 (the draws).  numpy sums along the axis and divides by the
number of rows; .std is the population standard deviation, the square root
of the mean squared deviation from the axis mean. -/

/-- Width of a row-major matrix: the length of its first row (numpy reads
it off the shape). -/
def matWidth (A : List (List ℚ)) : ℕ := (A.headD []).length

/-- Elementwise sum of the rows of A into a length-w accumulator: the
axis-0 sum of a numpy 2-d array. -/
def npSum0w (w : ℕ) (A : List (List ℚ)) : List ℚ :=
  A.foldr (fun r acc => List.zipWith (fun a b => a + b) r acc) (List.replicate w 0)

/-- Axis-0 sum of a 2-d array, width read off the array itself. -/
def npSum0 (A : List (List ℚ)) : List ℚ := npSum0w (matWidth A) A

/-- A.mean(0): axis-0 sum divided by the number of rows. -/
def npMean0 (A : List (List ℚ)) : List ℚ :=
  (npSum0 A).map (fun s => s / (A.length : ℚ))

/-- The matrix of squared deviations of each entry from its column's
axis-0 mean: the pointwise (x - x.mean(0)) ** 2 numpy evaluates inside
.std(0). -/
def devSq (A : List (List ℚ)) : List (List ℚ) :=
  A.map (fun r => List.zipWith (fun x m => (x - m) ^ 2) r (npMean0 A))

/-- A.var(0) with ddof 0 (the numpy default inside .std): the axis-0 mean
of the squared deviations. -/
def npVar0 (A : List (List ℚ)) : List ℚ := npMean0 (devSq A)

/-- A.std(0): the square root of the axis-0 population variance. -/
noncomputable def npStd0 (A : List (List ℚ)) : List ℝ :=
  (npVar0 A).map (fun v : ℚ => Real.sqrt (v : ℝ))

/-- Column j of a row-major matrix (out-of-range entries read 0). -/
def matCol (j : ℕ) (A : List (List ℚ)) : List ℚ := A.map (fun r => r.getD j 0)

/-- Arithmetic mean of a list of samples. -/
def listMean (xs : List ℚ) : ℚ := xs.sum / (xs.length : ℚ)

/-- Population variance of a list of samples (ddof 0). -/
def listVar (xs : List ℚ) : ℚ :=
  ((xs.map (fun x => (x - listMean xs) ^ 2)).sum) / (xs.length : ℚ)

/-- Population standard deviation of a list of samples. -/
noncomputable def listStd (xs : List ℚ) : ℝ := Real.sqrt ((listVar xs : ℚ) : ℝ)

/-! ### Axis-0 reductions act columnwise -/

theorem getD_zipWith {α β γ : Type} (f : α → β → γ) (dA : α) (dB : β) (dC : γ) :
    ∀ (r : List α) (s : List β) (j : ℕ), j < r.length → j < s.length →
      (List.zipWith f r s).getD j dC = f (r.getD j dA) (s.getD j dB)
  | [], _, _, h, _ => absurd h (by simp)
  | _ :: _, [], _, _, h => absurd h (by simp)
  | a :: _, b :: _, 0, _, _ => rfl
  | _ :: r, _ :: s, j + 1, hr, hs =>
      getD_zipWith f dA dB dC r s j (Nat.lt_of_succ_lt_succ hr) (Nat.lt_of_succ_lt_succ hs)

theorem length_npSum0w (w : ℕ) :
    ∀ (A : List (List ℚ)), (∀ r ∈ A, r.length = w) → (npSum0w w A).length = w
  | [], _ => by simp [npSum0w]
  | r :: A, h => by
      have hr : r.length = w := h r (by simp)
      have ih : (npSum0w w A).length = w :=
        length_npSum0w w A (fun t ht => h t (List.mem_cons_of_mem r ht))
      simp [npSum0w, List.foldr_cons] at ih ⊢
      omega

theorem getD_npSum0w (w : ℕ) (j : ℕ) (hj : j < w) :
    ∀ (A : List (List ℚ)), (∀ r ∈ A, r.length = w) →
      (npSum0w w A).getD j 0 = (matCol j A).sum
  | [], _ => by
      simp only [npSum0w, List.foldr_nil, matCol, List.map_nil, List.sum_nil,
        List.getD_eq_getElem?_getD, List.getElem?_replicate]
      split <;> simp
  | r :: A, h => by
      have hr : r.length = w := h r (by simp)
      have htail : ∀ t ∈ A, t.length = w := fun t ht => h t (List.mem_cons_of_mem r ht)
      have hlen : (npSum0w w A).length = w := length_npSum0w w A htail
      have ih := getD_npSum0w w j hj A htail
      have hz := getD_zipWith (fun a b => a + b) (0 : ℚ) (0 : ℚ) (0 : ℚ)
        r (npSum0w w A) j (by omega) (by omega)
      calc (npSum0w w (r :: A)).getD j 0
          = (List.zipWith (fun a b => a + b) r (npSum0w w A)).getD j 0 := rfl
        _ = r.getD j 0 + (npSum0w w A).getD j 0 := hz
        _ = r.getD j 0 + (matCol j A).sum := by rw [ih]
        _ = (matCol j (r :: A)).sum := by simp [matCol]

theorem width_of_rows {A : List (List ℚ)} {w : ℕ} (hA : A ≠ [])
    (h : ∀ r ∈ A, r.length = w) : matWidth A = w := by
  cases A with
  | nil => exact absurd rfl hA
  | cons r A => simpa [matWidth] using h r (by simp)

theorem getD_npSum0 {A : List (List ℚ)} {w j : ℕ} (hA : A ≠ [])
    (h : ∀ r ∈ A, r.length = w) (hj : j < w) :
    (npSum0 A).getD j 0 = (matCol j A).sum := by
  rw [npSum0, width_of_rows hA h]
  exact getD_npSum0w w j hj A h

theorem length_npSum0 {A : List (List ℚ)} {w : ℕ} (hA : A ≠ [])
    (h : ∀ r ∈ A, r.length = w) : (npSum0 A).length = w := by
  rw [npSum0, width_of_rows hA h]
  exact length_npSum0w w A h

theorem length_npMean0 {A : List (List ℚ)} {w : ℕ} (hA : A ≠ [])
    (h : ∀ r ∈ A, r.length = w) : (npMean0 A).length = w := by
  simpa [npMean0] using length_npSum0 hA h

theorem length_matCol (j : ℕ) (A : List (List ℚ)) : (matCol j A).length = A.length := by
  simp [matCol]

theorem getD_map_of_lt {α β : Type} (f : α → β) (dA : α) (dB : β) :
    ∀ (l : List α) (j : ℕ), j < l.length → (l.map f).getD j dB = f (l.getD j dA)
  | [], _, h => absurd h (by simp)
  | _ :: _, 0, _ => rfl
  | _ :: l, j + 1, h => getD_map_of_lt f dA dB l j (Nat.lt_of_succ_lt_succ h)

/-- Entry j of A.mean(0) is the arithmetic mean of column j. -/
theorem getD_npMean0 {A : List (List ℚ)} {w j : ℕ} (hA : A ≠ [])
    (h : ∀ r ∈ A, r.length = w) (hj : j < w) :
    (npMean0 A).getD j 0 = listMean (matCol j A) := by
  have hlen : (npSum0 A).length = w := length_npSum0 hA h
  have := getD_map_of_lt (fun s => s / (A.length : ℚ)) (0 : ℚ) (0 : ℚ)
    (npSum0 A) j (by omega)
  rw [npMean0, this, getD_npSum0 hA h hj, listMean, length_matCol]

theorem devSq_rows {A : List (List ℚ)} {w : ℕ} (hA : A ≠ [])
    (h : ∀ r ∈ A, r.length = w) : ∀ r ∈ devSq A, r.length = w := by
  intro r hr
  rcases List.mem_map.mp hr with ⟨t, ht, rfl⟩
  have := length_npMean0 hA h
  simp [List.length_zipWith, h t ht, this]

theorem matCol_devSq {A : List (List ℚ)} {w j : ℕ} (hA : A ≠ [])
    (h : ∀ r ∈ A, r.length = w) (hj : j < w) :
    matCol j (devSq A) =
      (matCol j A).map (fun x => (x - listMean (matCol j A)) ^ 2) := by
  have hmu : (npMean0 A).length = w := length_npMean0 hA h
  have hmuj : (npMean0 A).getD j 0 = listMean (matCol j A) := getD_npMean0 hA h hj
  calc matCol j (devSq A)
      = A.map (fun r =>
          (List.zipWith (fun x m => (x - m) ^ 2) r (npMean0 A)).getD j 0) := by
        simp [matCol, devSq, List.map_map]
    _ = A.map (fun r => (r.getD j 0 - listMean (matCol j A)) ^ 2) := by
        refine List.map_congr_left (fun r hr => ?_)
        rw [getD_zipWith (fun x m => (x - m) ^ 2) (0 : ℚ) (0 : ℚ) (0 : ℚ) r (npMean0 A) j
          (by rw [h r hr]; exact hj) (by rw [hmu]; exact hj), hmuj]
    _ = (matCol j A).map (fun x => (x - listMean (matCol j A)) ^ 2) := by
        simp [matCol, List.map_map]

/-- Entry j of A.var(0) is the population variance of column j. -/
theorem getD_npVar0 {A : List (List ℚ)} {w j : ℕ} (hA : A ≠ [])
    (h : ∀ r ∈ A, r.length = w) (hj : j < w) :
    (npVar0 A).getD j 0 = listVar (matCol j A) := by
  have hd : devSq A ≠ [] := by
    simpa [devSq] using hA
  rw [npVar0, getD_npMean0 hd (devSq_rows hA h) hj, matCol_devSq hA h hj]
  simp [listMean, listVar, length_matCol]

theorem length_npVar0 {A : List (List ℚ)} {w : ℕ} (hA : A ≠ [])
    (h : ∀ r ∈ A, r.length = w) : (npVar0 A).length = w := by
  have hd : devSq A ≠ [] := by simpa [devSq] using hA
  exact length_npMean0 hd (devSq_rows hA h)

theorem length_npStd0 {A : List (List ℚ)} {w : ℕ} (hA : A ≠ [])
    (h : ∀ r ∈ A, r.length = w) : (npStd0 A).length = w := by
  rw [npStd0, List.length_map]
  exact length_npVar0 hA h

/-- Entry j of A.std(0) is the population standard deviation of column j. -/
theorem getD_npStd0 {A : List (List ℚ)} {w j : ℕ} (hA : A ≠ [])
    (h : ∀ r ∈ A, r.length = w) (hj : j < w) :
    (npStd0 A).getD j 0 = listStd (matCol j A) := by
  have hv : (npVar0 A).length = w := length_npVar0 hA h
  have := getD_map_of_lt (fun v : ℚ => Real.sqrt (v : ℝ)) (0 : ℚ) (0 : ℝ)
    (npVar0 A) j (by omega)
  rw [npStd0, this, getD_npVar0 hA h hj, listStd]

/-! ## The pandas objects the notebook uses

pd.Series(values, index) pairs a value list with a label list;
sort_values() reorders the pairs by ascending value, .index reads the
labels off, and s[labels] looks each label up in the series. -/

/-- A pandas Series: a list of labels and the list of values they carry. -/
structure Series (α : Type) where
  index : List String
  values : List α

/-- The label-value pairs of a series. -/
def seriesPairs {α : Type} (s : Series α) : List (String × α) :=
  s.index.zip s.values

/-- s.sort_values(): the series reordered by ascending value. -/
def sortValues (s : Series ℚ) : Series ℚ :=
  let p := (seriesPairs s).mergeSort (fun a b => decide (a.2 ≤ b.2))
  ⟨p.map Prod.fst, p.map Prod.snd⟩

/-- s[labels]: label-based indexing by a list of labels, as a new series
(a label that is absent reads the default, which never happens in the
notebook since the labels come from the series' own index). -/
def reindex {α : Type} (d : α) (s : Series α) (labels : List String) : Series α :=
  ⟨labels, labels.map (fun l => ((seriesPairs s).lookup l).getD d)⟩

/-! ## The notebook's cells

The four Stan model blocks, written exactly as the notebook's string
literals (each starts and ends with a newline; braces appear as x7b/x7d
escapes). -/

/-- The data block string of cell 2. -/
def unpooled_data : String :=
  "\ndata \x7b\n  int<lower=0> N;\n  int<lower=1, upper=85> county[N];\n  vector[N] x;\n  vector[N] y;\n\x7d\n"

/-- The parameters block string of cell 3. -/
def unpooled_parameters : String :=
  "\nparameters \x7b\n  vector[85] a;\n  real beta;\n  real<lower=0, upper=100> sigma;\n\x7d\n"

/-- The transformed parameters block string of cell 4. -/
def unpooled_transformed_parameters : String :=
  "\ntransformed parameters \x7b\n  vector[N] y_hat;\n  \n  for (i in 1:N)\n    y_hat[i] <- beta * x[i] + a[county[i]];\n\x7d\n"

/-- The model block string of cell 5. -/
def unpooled_model : String :=
  "\nmodel \x7b\n  y ~ normal(y_hat, sigma);\n\x7d\n"

/-- The model_code argument of the pystan.stan call of cell 6:
unpooled_data + unpooled_parameters + unpooled_transformed_parameters +
unpooled_model. -/
def model_code : String :=
  unpooled_data ++ unpooled_parameters ++ unpooled_transformed_parameters ++ unpooled_model

/-- The data dictionary of cell 6: N is len(clean_data.log_radon), county
is clean_data.county + 1 (a new array, the Stan counts start from 1), x is
clean_data.floor_measure and y is clean_data.log_radon. -/
def unpooled_data_dict (cd : CleanData) : StanDataDict :=
  { N := cd.log_radon.length
    county := cd.county.map (fun c => c + 1)
    x := cd.floor_measure
    y := cd.log_radon }

/-- Cell 7: pd.Series(unpooled_fit['a'].mean(0), index=clean_data.mn_counties),
taking the extracted array as argument. -/
def unpooled_estimates (A : List (List ℚ)) (cd : CleanData) : Series ℚ :=
  ⟨cd.mn_counties, npMean0 A⟩

/-- Cell 7: pd.Series(unpooled_fit['a'].std(0), index=clean_data.mn_counties). -/
noncomputable def unpooled_se (A : List (List ℚ)) (cd : CleanData) : Series ℝ :=
  ⟨cd.mn_counties, npStd0 A⟩

/-- Cell 8: order = unpooled_estimates.sort_values().index. -/
def orderOf (est : Series ℚ) : List String := (sortValues est).index

/-- Cell 8: the y-values scattered, unpooled_estimates[order]. -/
def scatterYs (est : Series ℚ) : List ℚ := (reindex 0 est (orderOf est)).values

/-- Cell 8: the error bars, one vertical segment [m - se, m + se] per
plotted position, from zip(range(...), unpooled_estimates[order],
unpooled_se[order]). -/
noncomputable def errorBars (est : Series ℚ) (se : Series ℝ) (order : List String) :
    List (ℝ × ℝ) :=
  List.zipWith (fun m s : ℝ => (m - s, m + s))
    ((reindex 0 est order).values.map (fun q : ℚ => (q : ℝ)))
    ((reindex 0 se order).values)

/-! ## The Stan program's transformed parameters block, as semantics

Stan vectors and arrays are 1-based; a[county[i]] is in bounds exactly
when 1 <= county[i] <= 85.  The block
  for (i in 1:N) y_hat[i] <- beta * x[i] + a[county[i]];
is embedded as a loop that returns none on any out-of-bounds access. -/

/-- Stan 1-based read of a real vector: defined for 1 <= i <= length. -/
def stanVecGet (v : List ℚ) (i : ℕ) : Option ℚ :=
  if 1 ≤ i ∧ i ≤ v.length then some (v.getD (i - 1) 0) else none

/-- Stan 1-based read of an int array: defined for 1 <= i <= length. -/
def stanArrGet (v : List ℕ) (i : ℕ) : Option ℕ :=
  if 1 ≤ i ∧ i ≤ v.length then some (v.getD (i - 1) 0) else none

/-- The loop body of the transformed parameters block, from index i with n
iterations left: y_hat[i] <- beta * x[i] + a[county[i]]. -/
def stanYHatLoop (a x : List ℚ) (county : List ℕ) (beta : ℚ) : ℕ → ℕ → Option (List ℚ)
  | _, 0 => some []
  | i, n + 1 => do
      let xi ← stanVecGet x i
      let ci ← stanArrGet county i
      let ai ← stanVecGet a ci
      let rest ← stanYHatLoop a x county beta (i + 1) n
      pure ((beta * xi + ai) :: rest)

/-- The transformed parameter y_hat: the loop for i in 1:N. -/
def stanYHat (a : List ℚ) (beta : ℚ) (x : List ℚ) (county : List ℕ) (N : ℕ) :
    Option (List ℚ) :=
  stanYHatLoop a x county beta 1 N

/-! ## The notebook as a program

Each executable cell is a list of steps.  The step language also has the
constructs the notebook could have used but does not: a try/except
wrapper, an input validation, a mutation of the clean_data module, and
locally implemented inference (MCMC, gradients, model compilation).
Execution threads an environment through the steps; an uncaught error
marks the environment and every later step is skipped, which models an
exception propagating out of the notebook. -/

/-- The errors the embedded calls can raise. -/
inductive PyError where
  | samplerFailure (msg : String)
  | keyError (key : String)
  | nameError (name : String)
  | validationFailure

/-- A fit object is produced by the external sampler: pystan.stan takes
the model code, the data dictionary, iter and chains, and either returns
a fit or raises. -/
def Sampler : Type := String → StanDataDict → ℕ → ℕ → Except PyError StanFit

/-- The step language of the notebook. -/
inductive Step where
  | importModule (m : String)
  | setPlotContext
  | defModelString (name value : String)
  | defDataDict
  | callSampler (parts : List String) (iter chains : ℕ)
  | extractSummaries
  | inspectHead
  | computeOrder
  | renderPlot
  | tryExcept (inner : Step)
  | validateInput (check : CleanData → Bool)
  | mutateCleanData (f : CleanData → CleanData)
  | implementMCMC
  | implementGradients
  | compileModelLocally

/-- The state an execution threads: the imported clean_data module, the
defined model-string variables, the data dictionary, the fit object, the
array extracted from it, the log of sampler invocations (model code, data
dictionary, iter, chains), and the pending uncaught error. -/
structure Env where
  cleanData : CleanData
  strVars : List (String × String)
  dict : Option StanDataDict
  fit : Option StanFit
  extractedA : Option (List (List ℚ))
  calls : List (String × StanDataDict × ℕ × ℕ)
  err : Option PyError

/-- The model code the call cell assembles: the named string variables
looked up and concatenated in order (unpooled_data + unpooled_parameters +
unpooled_transformed_parameters + unpooled_model). -/
def assembleCode (strVars : List (String × String)) (parts : List String) : String :=
  String.join (parts.map (fun n => (strVars.lookup n).getD ""))

/-- One step of execution.  A pending error skips the step, except that a
try/except wrapper discards an error its body raises. -/
def execStep (sampler : Sampler) : Step → Env → Env
  | s, env =>
    if env.err.isSome then env else
    match s with
    | .importModule _ => env
    | .setPlotContext => env
    | .defModelString n v => { env with strVars := env.strVars ++ [(n, v)] }
    | .defDataDict => { env with dict := some (unpooled_data_dict env.cleanData) }
    | .callSampler parts iter chains =>
        match env.dict with
        | none => { env with err := some (.nameError "unpooled_data_dict") }
        | some d =>
            let code := assembleCode env.strVars parts
            let env' := { env with calls := env.calls ++ [(code, d, iter, chains)] }
            match sampler code d iter chains with
            | .ok f => { env' with fit := some f }
            | .error e => { env' with err := some e }
    | .extractSummaries =>
        match env.fit with
        | none => { env with err := some (.nameError "unpooled_fit") }
        | some f =>
            match List.lookup "a" f with
            | none => { env with err := some (PyError.keyError "a") }
            | some A => { env with extractedA := some A }
    | .inspectHead => env
    | .computeOrder => env
    | .renderPlot => env
    | .tryExcept inner =>
        let r := execStep sampler inner env
        if r.err.isSome then { r with err := none } else r
    | .validateInput check =>
        if check env.cleanData then env else { env with err := some .validationFailure }
    | .mutateCleanData f => { env with cleanData := f env.cleanData }
    | .implementMCMC => env
    | .implementGradients => env
    | .compileModelLocally => env

/-- Run a list of steps in order. -/
def runSteps (sampler : Sampler) (prog : List Step) (env : Env) : Env :=
  prog.foldl (fun e s => execStep sampler s e) env

/-- The notebook, cell by cell: the import cell, the four model-block
string cells, the data-dictionary and pystan.stan cell, the
estimates/standard-errors cell with its .head() inspection, and the
plotting cell. -/
def notebook : List Step :=
  [ .importModule "numpy",
    .importModule "pandas",
    .importModule "pystan",
    .importModule "seaborn",
    .importModule "clean_data",
    .setPlotContext,
    .defModelString "unpooled_data" unpooled_data,
    .defModelString "unpooled_parameters" unpooled_parameters,
    .defModelString "unpooled_transformed_parameters" unpooled_transformed_parameters,
    .defModelString "unpooled_model" unpooled_model,
    .defDataDict,
    .callSampler ["unpooled_data", "unpooled_parameters", "unpooled_transformed_parameters",
      "unpooled_model"] 1000 2,
    .extractSummaries,
    .inspectHead,
    .computeOrder,
    .renderPlot ]

/-- The environment the notebook starts from: just the imported data. -/
def initEnv (cd : CleanData) : Env :=
  ⟨cd, [], none, none, none, [], none⟩

/-- Run the whole notebook against a sampler. -/
def runNotebook (sampler : Sampler) (cd : CleanData) : Env :=
  runSteps sampler notebook (initEnv cd)

/-! ### Syntactic predicates over steps -/

/-- Whether a step is (or wraps) an exception handler. -/
def stepHandlesErrors : Step → Bool
  | .tryExcept _ => true
  | _ => false

/-- Whether a step validates its input before a call. -/
def stepValidates : Step → Bool
  | .validateInput _ => true
  | .tryExcept inner => stepValidates inner
  | _ => false

/-- Whether a step writes to the clean_data module. -/
def stepMutates : Step → Bool
  | .mutateCleanData _ => true
  | .tryExcept inner => stepMutates inner
  | _ => false

/-- Whether a step is the sampler invocation. -/
def stepIsSamplerCall : Step → Bool
  | .callSampler _ _ _ => true
  | _ => false

/-- Whether a step is a sampler invocation with the given iter and chains. -/
def stepIsSamplerCallWith (iter chains : ℕ) : Step → Bool
  | .callSampler _ i c => i == iter && c == chains
  | _ => false

/-- Whether a step implements inference locally (MCMC sampling, gradient
computation or model compilation) instead of delegating to the sampler. -/
def stepImplementsInference : Step → Bool
  | .implementMCMC => true
  | .implementGradients => true
  | .compileModelLocally => true
  | .tryExcept inner => stepImplementsInference inner
  | _ => false

/-- The phase a glue step belongs to: 0 loading and setup, 1 model-string
construction, 2 data-dictionary construction, 3 the sampler call, 4
extraction and summary statistics, 5 plotting; 6 for anything that is not
part of that pipeline. -/
def stepPhase : Step → ℕ
  | .importModule _ => 0
  | .setPlotContext => 0
  | .defModelString _ _ => 1
  | .defDataDict => 2
  | .callSampler _ _ _ => 3
  | .extractSummaries => 4
  | .inspectHead => 4
  | .computeOrder => 5
  | .renderPlot => 5
  | _ => 6

/-- Whether a step is plain pipeline glue. -/
def stepIsGlue (s : Step) : Bool := stepPhase s ≤ 5

/-! ### Characterizing the run -/

/-- The four model-string variables after the string cells ran. -/
def modelStringPairs : List (String × String) :=
  [("unpooled_data", unpooled_data),
   ("unpooled_parameters", unpooled_parameters),
   ("unpooled_transformed_parameters", unpooled_transformed_parameters),
   ("unpooled_model", unpooled_model)]

/-- The environment just before the pystan.stan call. -/
def preEnv (cd : CleanData) : Env :=
  ⟨cd, modelStringPairs, some (unpooled_data_dict cd), none, none, [], none⟩

/-- The sampler-invocation log the run produces: one call, with the
concatenated model code, the data dictionary, iter 1000 and chains 2. -/
def callsLog (cd : CleanData) : List (String × StanDataDict × ℕ × ℕ) :=
  [(model_code, unpooled_data_dict cd, 1000, 2)]

theorem execStep_callSampler (sampler : Sampler) (parts : List String) (iter chains : ℕ)
    (env : Env) (d : StanDataDict) (he : env.err = none) (hd : env.dict = some d) :
    execStep sampler (.callSampler parts iter chains) env =
      match sampler (assembleCode env.strVars parts) d iter chains with
      | .ok f =>
          { env with
              calls := env.calls ++ [(assembleCode env.strVars parts, d, iter, chains)]
              fit := some f }
      | .error e =>
          { env with
              calls := env.calls ++ [(assembleCode env.strVars parts, d, iter, chains)]
              err := some e } := by
  unfold execStep
  rw [he, hd]
  rfl

theorem runSteps_tail (sampler : Sampler) (env : Env) :
    runSteps sampler [Step.extractSummaries, Step.inspectHead, Step.computeOrder,
        Step.renderPlot] env =
      match env.err, env.fit with
      | some _, _ => env
      | none, none => { env with err := some (PyError.nameError "unpooled_fit") }
      | none, some f =>
          match List.lookup "a" f with
          | none => { env with err := some (PyError.keyError "a") }
          | some A => { env with extractedA := some A } := by
  rcases he : env.err with _ | e
  · rcases hf : env.fit with _ | f
    · simp [runSteps, execStep, he, hf]
    · rcases hl : List.lookup "a" f with _ | A <;>
        simp [runSteps, execStep, he, hf, hl]
  · simp [runSteps, execStep, he]

/-- What one run of the notebook produces, as a function of the sampler's
answer to the single invocation it makes. -/
theorem runNotebook_char (sampler : Sampler) (cd : CleanData) :
    runNotebook sampler cd =
      match sampler model_code (unpooled_data_dict cd) 1000 2 with
      | .error e => { preEnv cd with calls := callsLog cd, err := some e }
      | .ok f =>
          match List.lookup "a" f with
          | none =>
              { preEnv cd with
                  calls := callsLog cd
                  fit := some f
                  err := some (PyError.keyError "a") }
          | some A =>
              { preEnv cd with
                  calls := callsLog cd
                  fit := some f
                  extractedA := some A } := by
  have h0 : runNotebook sampler cd =
      runSteps sampler [Step.extractSummaries, Step.inspectHead, Step.computeOrder,
        Step.renderPlot]
        (execStep sampler (Step.callSampler ["unpooled_data", "unpooled_parameters",
          "unpooled_transformed_parameters", "unpooled_model"] 1000 2) (preEnv cd)) := rfl
  rw [h0, execStep_callSampler sampler _ 1000 2 (preEnv cd) (unpooled_data_dict cd) rfl rfl]
  have hcode : assembleCode (preEnv cd).strVars ["unpooled_data", "unpooled_parameters",
      "unpooled_transformed_parameters", "unpooled_model"] = model_code := rfl
  rw [hcode]
  cases sampler model_code (unpooled_data_dict cd) 1000 2 with
  | error e => rw [runSteps_tail]; rfl
  | ok f =>
      rw [runSteps_tail]
      rcases List.lookup "a" f with _ | A <;> rfl

/-! ### Label lookup and sorting facts -/

theorem lookup_eq_of_nodup {α : Type} :
    ∀ (l : List (String × α)), (l.map Prod.fst).Nodup →
      ∀ p ∈ l, l.lookup p.1 = some p.2
  | [], _, p, hp => absurd hp (by simp)
  | q :: l, hnd, p, hp => by
      rcases List.mem_cons.mp hp with rfl | hp
      · simp [List.lookup]
      · have hne : p.1 ≠ q.1 := by
          intro hcontra
          have hq1 : q.1 ∉ l.map Prod.fst := (List.nodup_cons.mp (by simpa using hnd)).1
          exact hq1 (hcontra ▸ List.mem_map_of_mem Prod.fst hp)
        have htl : (l.map Prod.fst).Nodup := (List.nodup_cons.mp (by simpa using hnd)).2
        have hb : (p.1 == q.1) = false := by simpa using hne
        simp only [List.lookup, hb]
        exact lookup_eq_of_nodup l htl p hp

/-- The comparison sort_values sorts by. -/
def byValue {α : Type} [LE α] [DecidableRel (fun a b : α => a ≤ b)]
    (p q : String × α) : Bool := decide (p.2 ≤ q.2)

theorem sortValues_eq (est : Series ℚ) :
    sortValues est =
      ⟨((seriesPairs est).mergeSort byValue).map Prod.fst,
       ((seriesPairs est).mergeSort byValue).map Prod.snd⟩ := rfl

theorem sorted_pairs_mergeSort (l : List (String × ℚ)) :
    (l.mergeSort byValue).Pairwise (fun p q => p.2 ≤ q.2) := by
  have h := @List.sorted_mergeSort (String × ℚ) byValue
    (fun a b c hab hbc => by
      simp only [byValue, decide_eq_true_eq] at hab hbc ⊢
      exact le_trans hab hbc)
    (fun a b => by
      simp only [byValue, Bool.or_eq_true, decide_eq_true_eq]
      exact le_total a.2 b.2) l
  exact h.imp (fun hab => by simpa [byValue] using hab)

/-- The values plotted by the scatter call are the sorted estimate values:
unpooled_estimates[order] with order = sort_values().index, provided the
index labels are distinct. -/
theorem scatterYs_eq_sorted (est : Series ℚ)
    (hlen : est.index.length = est.values.length) (hnd : est.index.Nodup) :
    scatterYs est = ((seriesPairs est).mergeSort byValue).map Prod.snd := by
  have hfst : (seriesPairs est).map Prod.fst = est.index :=
    List.map_fst_zip est.index est.values (le_of_eq hlen)
  have hndk : ((seriesPairs est).map Prod.fst).Nodup := by rw [hfst]; exact hnd
  have hperm := List.mergeSort_perm (seriesPairs est) byValue
  calc scatterYs est
      = (((seriesPairs est).mergeSort byValue).map Prod.fst).map
          (fun l => ((seriesPairs est).lookup l).getD 0) := by
        simp [scatterYs, reindex, orderOf, sortValues_eq]
    _ = ((seriesPairs est).mergeSort byValue).map
          (fun p => (((seriesPairs est).lookup p.1).getD 0)) := by
        rw [List.map_map]
        rfl
    _ = ((seriesPairs est).mergeSort byValue).map Prod.snd := by
        refine List.map_congr_left (fun p hp => ?_)
        rw [lookup_eq_of_nodup (seriesPairs est) hndk p (hperm.mem_iff.mp hp)]
        rfl

/-- The plotted estimate sequence is nondecreasing. -/
theorem sorted_scatterYs (est : Series ℚ)
    (hlen : est.index.length = est.values.length) (hnd : est.index.Nodup) :
    (scatterYs est).Pairwise (fun a b => a ≤ b) := by
  rw [scatterYs_eq_sorted est hlen hnd]
  exact List.pairwise_map.mpr (sorted_pairs_mergeSort (seriesPairs est))

/-- Bar i of the error-bar loop spans estimate plus or minus standard
error of one and the same label, order[i]. -/
theorem errorBars_getD (est : Series ℚ) (se : Series ℝ) (order : List String) (i : ℕ)
    (hi : i < order.length) :
    (errorBars est se order).getD i (0, 0) =
      ((((seriesPairs est).lookup (order.getD i "")).getD 0 : ℚ) -
          ((seriesPairs se).lookup (order.getD i "")).getD 0,
       (((seriesPairs est).lookup (order.getD i "")).getD 0 : ℚ) +
          ((seriesPairs se).lookup (order.getD i "")).getD 0) := by
  have h1 : ((reindex 0 est order).values.map (fun q : ℚ => (q : ℝ))).length = order.length := by
    simp [reindex]
  have h2 : ((reindex (0 : ℝ) se order).values).length = order.length := by
    simp [reindex]
  rw [errorBars, getD_zipWith (fun m s : ℝ => (m - s, m + s)) (0 : ℝ) (0 : ℝ) ((0 : ℝ), (0 : ℝ))
    _ _ i (by omega) (by omega)]
  have h3 : (reindex 0 est order).values.length = order.length := by simp [reindex]
  rw [getD_map_of_lt (fun q : ℚ => (q : ℝ)) (0 : ℚ) (0 : ℝ) _ i (by omega)]
  have h4 : (reindex 0 est order).values.getD i 0 =
      ((seriesPairs est).lookup (order.getD i "")).getD 0 := by
    rw [reindex]
    exact getD_map_of_lt (fun l => ((seriesPairs est).lookup l).getD 0) "" (0 : ℚ) order i hi
  have h5 : (reindex (0 : ℝ) se order).values.getD i 0 =
      ((seriesPairs se).lookup (order.getD i "")).getD 0 := by
    rw [reindex]
    exact getD_map_of_lt (fun l => ((seriesPairs se).lookup l).getD 0) "" (0 : ℝ) order i hi
  rw [h4, h5]

/-! ### The transformed parameters block is safe under the declared bounds -/

theorem stanYHatLoop_isSome (a x : List ℚ) (county : List ℕ) (beta : ℚ)
    (hb : ∀ c ∈ county, 1 ≤ c ∧ c ≤ a.length) :
    ∀ (n i : ℕ), 1 ≤ i → i + n ≤ x.length + 1 → i + n ≤ county.length + 1 →
      (stanYHatLoop a x county beta i n).isSome = true
  | 0, i, _, _, _ => by simp [stanYHatLoop]
  | n + 1, i, h1, hx, hc => by
      have hxi : stanVecGet x i = some (x.getD (i - 1) 0) := by
        rw [stanVecGet, if_pos]
        exact ⟨h1, by omega⟩
      have hci : stanArrGet county i = some (county.getD (i - 1) 0) := by
        rw [stanArrGet, if_pos]
        exact ⟨h1, by omega⟩
      have hcmem : county.getD (i - 1) 0 ∈ county := by
        have hlt : i - 1 < county.length := by omega
        rw [List.getD_eq_getElem county 0 hlt]
        exact List.getElem_mem hlt
      have hai : stanVecGet a (county.getD (i - 1) 0) =
          some (a.getD (county.getD (i - 1) 0 - 1) 0) := by
        rw [stanVecGet, if_pos]
        exact hb _ hcmem
      have hrest := stanYHatLoop_isSome a x county beta hb n (i + 1)
        (by omega) (by omega) (by omega)
      rcases Option.isSome_iff_exists.mp hrest with ⟨r, hr⟩
      simp only [List.getD_eq_getElem?_getD] at hai
      simp [stanYHatLoop, hxi, hci, hai, hr]

/-- Under the data block's bounds, every access the loop makes is in
bounds and y_hat is defined. -/
theorem stanYHat_isSome (a x : List ℚ) (county : List ℕ) (beta : ℚ) (N : ℕ)
    (hb : ∀ c ∈ county, 1 ≤ c ∧ c ≤ a.length)
    (hx : x.length = N) (hc : county.length = N) :
    (stanYHat a beta x county N).isSome = true :=
  stanYHatLoop_isSome a x county beta hb N 1 (by omega) (by omega) (by omega)

/-! ## The claims -/

/-- Helper: every run logs exactly one sampler invocation, carrying the
concatenated model code, the data dictionary, iter 1000 and chains 2. -/
theorem calls_runNotebook (sampler : Sampler) (cd : CleanData) :
    (runNotebook sampler cd).calls = [(model_code, unpooled_data_dict cd, 1000, 2)] := by
  rw [runNotebook_char]
  cases sampler model_code (unpooled_data_dict cd) 1000 2 with
  | error e => rfl
  | ok f => rcases hl : List.lookup "a" f with _ | A <;> simp [hl, callsLog]

/-- C1: the program's entire behaviour, executed in order, is loading and
setup, model-string construction, data-dictionary construction, a single
sampler call, extraction with summary statistics, and plotting: every step
is pipeline glue, the phases are traversed in order, every phase occurs,
and there is exactly one sampler call. -/
theorem claim_C1_pipeline_only :
    notebook.all stepIsGlue = true ∧
    List.Pairwise (fun p q => p ≤ q) (notebook.map stepPhase) ∧
    ([0, 1, 2, 3, 4, 5].all (fun p => notebook.any (fun s => stepPhase s == p))) = true ∧
    notebook.countP stepIsSamplerCall = 1 :=
  ⟨by decide, by decide, by decide, by decide⟩

/-- C2: for county j (0-based, j < 85), the estimate series entry is the
arithmetic mean over axis 0 of column j of the extracted array, the
standard-error series entry is the standard deviation over axis 0 of the
same column, and both series are labelled by clean_data.mn_counties[j]. -/
theorem claim_C2_per_county_summaries (A : List (List ℚ)) (cd : CleanData) (j : ℕ)
    (hA : A ≠ []) (hrows : ∀ r ∈ A, r.length = 85) (hj : j < 85) :
    (unpooled_estimates A cd).index.getD j "" = cd.mn_counties.getD j "" ∧
    (unpooled_se A cd).index.getD j "" = cd.mn_counties.getD j "" ∧
    (unpooled_estimates A cd).values.getD j 0 = listMean (matCol j A) ∧
    (unpooled_se A cd).values.getD j 0 = listStd (matCol j A) :=
  ⟨rfl, rfl, getD_npMean0 hA hrows hj, getD_npStd0 hA hrows hj⟩

/-- Witness for C2 at a concrete one-draw array of width 85. -/
theorem claim_C2_witness :
    (unpooled_estimates [List.replicate 85 (0 : ℚ)]
        ⟨[], [], [], List.replicate 85 "c"⟩).index.getD 3 "" =
      (List.replicate 85 "c").getD 3 "" ∧
    (unpooled_se [List.replicate 85 (0 : ℚ)]
        ⟨[], [], [], List.replicate 85 "c"⟩).index.getD 3 "" =
      (List.replicate 85 "c").getD 3 "" ∧
    (unpooled_estimates [List.replicate 85 (0 : ℚ)]
        ⟨[], [], [], List.replicate 85 "c"⟩).values.getD 3 0 =
      listMean (matCol 3 [List.replicate 85 (0 : ℚ)]) ∧
    (unpooled_se [List.replicate 85 (0 : ℚ)]
        ⟨[], [], [], List.replicate 85 "c"⟩).values.getD 3 0 =
      listStd (matCol 3 [List.replicate 85 (0 : ℚ)]) :=
  claim_C2_per_county_summaries [List.replicate 85 (0 : ℚ)]
    ⟨[], [], [], List.replicate 85 "c"⟩ 3 (by decide) (by decide) (by decide)

/-- The Stan declarations the concatenated model text carries. -/
def stanDeclarations : List String :=
  ["data \x7b", "int<lower=0> N;", "int<lower=1, upper=85> county[N];",
   "vector[N] x;", "vector[N] y;",
   "parameters \x7b", "vector[85] a;", "real beta;", "real<lower=0, upper=100> sigma;",
   "transformed parameters \x7b", "y_hat[i] <- beta * x[i] + a[county[i]];",
   "model \x7b", "y ~ normal(y_hat, sigma);"]

set_option maxRecDepth 40000 in
/-- C3: the model_code handed to the sampler is exactly the concatenation,
in order, of the data, parameters, transformed-parameters and model block
strings, and the concatenated text declares the data (N, county, x, y),
the parameters (a, beta, sigma), the transformed parameter y_hat and the
normal likelihood. -/
theorem claim_C3_model_code :
    (∀ (sampler : Sampler) (cd : CleanData),
        (runNotebook sampler cd).calls = [(model_code, unpooled_data_dict cd, 1000, 2)]) ∧
    model_code =
      unpooled_data ++ unpooled_parameters ++ unpooled_transformed_parameters ++
        unpooled_model ∧
    (∀ t ∈ stanDeclarations, t.data <:+: model_code.data) :=
  ⟨calls_runNotebook, rfl, by decide⟩

/-- C4: no step of the notebook wraps anything in an exception handler or
validates input first, an error the sampler raises propagates to the
caller unchanged, and an extraction failure (a fit object without the key
a) likewise surfaces as the uncaught error of the run. -/
theorem claim_C4_no_failure_handling :
    notebook.all (fun s => !stepHandlesErrors s && !stepValidates s) = true ∧
    (∀ (e : PyError) (cd : CleanData),
        (runNotebook (fun _ _ _ _ => Except.error e) cd).err = some e) ∧
    (∀ (cd : CleanData),
        (runNotebook (fun _ _ _ _ => Except.ok ([] : StanFit)) cd).err =
          some (PyError.keyError "a")) := by
  refine ⟨by decide, fun e cd => ?_, fun cd => ?_⟩
  · rw [runNotebook_char]
  · rw [runNotebook_char]
    rfl

/-- C5: the data dictionary is consistent with the data block: N equals
the length of the vector bound to y, the transmitted county values are
clean_data.county + 1 and lie in the declared bounds 1..85 when every raw
county index lies in 0..84, and then every access a[county[i]] of the
transformed-parameters loop is inside the length-85 vector a. -/
theorem claim_C5_dict_consistent (cd : CleanData) (a : List ℚ) (beta : ℚ)
    (hb : ∀ c ∈ cd.county, c ≤ 84)
    (hcl : cd.county.length = cd.log_radon.length)
    (hfl : cd.floor_measure.length = cd.log_radon.length)
    (ha : a.length = 85) :
    (unpooled_data_dict cd).N = (unpooled_data_dict cd).y.length ∧
    (∀ v ∈ (unpooled_data_dict cd).county, 1 ≤ v ∧ v ≤ 85) ∧
    (stanYHat a beta (unpooled_data_dict cd).x (unpooled_data_dict cd).county
        (unpooled_data_dict cd).N).isSome = true := by
  refine ⟨rfl, fun v hv => ?_, ?_⟩
  · rcases List.mem_map.mp hv with ⟨c, hc, rfl⟩
    have := hb c hc
    omega
  · refine stanYHat_isSome a _ _ beta _ (fun v hv => ?_) hfl ?_
    · rcases List.mem_map.mp hv with ⟨c, hc, rfl⟩
      have := hb c hc
      omega
    · simpa [unpooled_data_dict] using hcl

/-- Witness for C5 at a concrete one-household dataset. -/
theorem claim_C5_witness :
    (unpooled_data_dict ⟨[0], [0], [0], []⟩).N =
      (unpooled_data_dict ⟨[0], [0], [0], []⟩).y.length ∧
    (∀ v ∈ (unpooled_data_dict ⟨[0], [0], [0], []⟩).county, 1 ≤ v ∧ v ≤ 85) ∧
    (stanYHat (List.replicate 85 (0 : ℚ)) 0 (unpooled_data_dict ⟨[0], [0], [0], []⟩).x
        (unpooled_data_dict ⟨[0], [0], [0], []⟩).county
        (unpooled_data_dict ⟨[0], [0], [0], []⟩).N).isSome = true :=
  claim_C5_dict_consistent ⟨[0], [0], [0], []⟩ (List.replicate 85 (0 : ℚ)) 0
    (by decide) rfl rfl (by decide)

/-- C6: the run never mutates the clean_data module: no step writes to it,
the dict's county entry is a new array built from clean_data.county + 1,
and after any run the clean_data component of the state is exactly the
loaded value. -/
theorem claim_C6_frame :
    notebook.all (fun s => !stepMutates s) = true ∧
    (∀ (cd : CleanData), (unpooled_data_dict cd).county = cd.county.map (fun c => c + 1)) ∧
    (∀ (sampler : Sampler) (cd : CleanData), (runNotebook sampler cd).cleanData = cd) := by
  refine ⟨by decide, fun cd => rfl, fun sampler cd => ?_⟩
  rw [runNotebook_char]
  cases sampler model_code (unpooled_data_dict cd) 1000 2 with
  | error e => rfl
  | ok f => rcases hl : List.lookup "a" f with _ | A <;> simp [hl, preEnv]

/-- C7: in the summary plot the plotted estimate sequence is
nondecreasing (the counties are reindexed by the order obtained from
sorting the estimates ascending), and bar i spans estimate minus/plus
standard error of the one county order[i], since both series are
reindexed by the same order. -/
theorem claim_C7_sorted_plot (A : List (List ℚ)) (cd : CleanData)
    (hA : A ≠ []) (hrows : ∀ r ∈ A, r.length = 85)
    (hnames : cd.mn_counties.length = 85) (hnd : cd.mn_counties.Nodup) :
    (scatterYs (unpooled_estimates A cd)).Pairwise (fun a b => a ≤ b) ∧
    (∀ i : ℕ, i < 85 →
      (errorBars (unpooled_estimates A cd) (unpooled_se A cd)
          (orderOf (unpooled_estimates A cd))).getD i (0, 0) =
        ((((seriesPairs (unpooled_estimates A cd)).lookup
              ((orderOf (unpooled_estimates A cd)).getD i "")).getD 0 : ℚ) -
            ((seriesPairs (unpooled_se A cd)).lookup
              ((orderOf (unpooled_estimates A cd)).getD i "")).getD 0,
         (((seriesPairs (unpooled_estimates A cd)).lookup
              ((orderOf (unpooled_estimates A cd)).getD i "")).getD 0 : ℚ) +
            ((seriesPairs (unpooled_se A cd)).lookup
              ((orderOf (unpooled_estimates A cd)).getD i "")).getD 0)) := by
  have hvals : (unpooled_estimates A cd).values.length = 85 := length_npMean0 hA hrows
  have hlen : (unpooled_estimates A cd).index.length =
      (unpooled_estimates A cd).values.length := by
    rw [hvals]
    exact hnames
  constructor
  · exact sorted_scatterYs _ hlen hnd
  · intro i hi
    have horder : (orderOf (unpooled_estimates A cd)).length = 85 := by
      rw [orderOf, sortValues_eq]
      simp only [List.length_map, (List.mergeSort_perm _ _).length_eq, seriesPairs,
        List.length_zip]
      rw [hvals]
      have hidx : (unpooled_estimates A cd).index.length = 85 := hnames
      omega
    exact errorBars_getD _ _ _ i (by omega)

/-- Eighty-five distinct county names for concrete instantiation. -/
def witnessNames : List String := (List.range 85).map (fun n => String.mk [Char.ofNat (33 + n)])

set_option maxRecDepth 100000 in
/-- Witness for C7 at a concrete one-draw array of width 85 and 85
distinct county names. -/
theorem claim_C7_witness :
    (scatterYs (unpooled_estimates [List.replicate 85 (0 : ℚ)]
        ⟨[], [], [], witnessNames⟩)).Pairwise (fun a b => a ≤ b) ∧
    (∀ i : ℕ, i < 85 →
      (errorBars (unpooled_estimates [List.replicate 85 (0 : ℚ)] ⟨[], [], [], witnessNames⟩)
          (unpooled_se [List.replicate 85 (0 : ℚ)] ⟨[], [], [], witnessNames⟩)
          (orderOf (unpooled_estimates [List.replicate 85 (0 : ℚ)]
            ⟨[], [], [], witnessNames⟩))).getD i (0, 0) =
        ((((seriesPairs (unpooled_estimates [List.replicate 85 (0 : ℚ)]
              ⟨[], [], [], witnessNames⟩)).lookup
              ((orderOf (unpooled_estimates [List.replicate 85 (0 : ℚ)]
                ⟨[], [], [], witnessNames⟩)).getD i "")).getD 0 : ℚ) -
            ((seriesPairs (unpooled_se [List.replicate 85 (0 : ℚ)]
              ⟨[], [], [], witnessNames⟩)).lookup
              ((orderOf (unpooled_estimates [List.replicate 85 (0 : ℚ)]
                ⟨[], [], [], witnessNames⟩)).getD i "")).getD 0,
         (((seriesPairs (unpooled_estimates [List.replicate 85 (0 : ℚ)]
              ⟨[], [], [], witnessNames⟩)).lookup
              ((orderOf (unpooled_estimates [List.replicate 85 (0 : ℚ)]
                ⟨[], [], [], witnessNames⟩)).getD i "")).getD 0 : ℚ) +
            ((seriesPairs (unpooled_se [List.replicate 85 (0 : ℚ)]
              ⟨[], [], [], witnessNames⟩)).lookup
              ((orderOf (unpooled_estimates [List.replicate 85 (0 : ℚ)]
                ⟨[], [], [], witnessNames⟩)).getD i "")).getD 0)) :=
  claim_C7_sorted_plot [List.replicate 85 (0 : ℚ)] ⟨[], [], [], witnessNames⟩
    (by decide) (by decide) (by decide) (by decide)

/-- C8: the notebook makes exactly one sampler invocation, with iter 1000
and chains 2; it implements no MCMC, gradient or compilation step of its
own; and the array the summaries consume is exactly what that single
invocation's fit object holds under the key a. -/
theorem claim_C8_single_invocation :
    notebook.countP stepIsSamplerCall = 1 ∧
    notebook.countP (stepIsSamplerCallWith 1000 2) = 1 ∧
    notebook.all (fun s => !stepImplementsInference s) = true ∧
    (∀ (sampler : Sampler) (cd : CleanData),
        ((runNotebook sampler cd).calls).length = 1) ∧
    (∀ (sampler : Sampler) (cd : CleanData) (f : StanFit) (A : List (List ℚ)),
        sampler model_code (unpooled_data_dict cd) 1000 2 = Except.ok f →
        List.lookup "a" f = some A →
        (runNotebook sampler cd).extractedA = some A) := by
  refine ⟨by decide, by decide, by decide, fun sampler cd => ?_, ?_⟩
  · rw [calls_runNotebook]
    rfl
  · intro sampler cd f A hs hl
    rw [runNotebook_char, hs]
    simp [hl]

/-- C9: the post-sampling pipeline is deterministic and depends only on
the extracted array and the county-name index: two runs with equal
extracted arrays and equal mn_counties produce equal estimate series,
equal standard-error series and an equal sorted plotting order, whatever
the rest of the data is. -/
theorem claim_C9_post_pipeline_deterministic (A₁ A₂ : List (List ℚ)) (cd₁ cd₂ : CleanData)
    (hA : A₁ = A₂) (hn : cd₁.mn_counties = cd₂.mn_counties) :
    unpooled_estimates A₁ cd₁ = unpooled_estimates A₂ cd₂ ∧
    unpooled_se A₁ cd₁ = unpooled_se A₂ cd₂ ∧
    orderOf (unpooled_estimates A₁ cd₁) = orderOf (unpooled_estimates A₂ cd₂) := by
  subst hA
  refine ⟨?_, ?_, ?_⟩ <;> simp [unpooled_estimates, unpooled_se, orderOf, hn]

/-- Witness for C9: two datasets that differ everywhere except in the
county names give the same summaries for the same extracted array. -/
theorem claim_C9_witness :
    unpooled_estimates [[1]] ⟨[1], [], [], ["X"]⟩ =
      unpooled_estimates [[1]] ⟨[2], [0], [3], ["X"]⟩ ∧
    unpooled_se [[1]] ⟨[1], [], [], ["X"]⟩ =
      unpooled_se [[1]] ⟨[2], [0], [3], ["X"]⟩ ∧
    orderOf (unpooled_estimates [[1]] ⟨[1], [], [], ["X"]⟩) =
      orderOf (unpooled_estimates [[1]] ⟨[2], [0], [3], ["X"]⟩) :=
  claim_C9_post_pipeline_deterministic [[1]] [[1]] ⟨[1], [], [], ["X"]⟩
    ⟨[2], [0], [3], ["X"]⟩ rfl rfl

end Unpooled
